import Mathlib

/-!
Verification of the Windows VM manager (`vm-testing/windows_vm_manager.py`)
against its natural-language specification.

The script is a thin, single-threaded orchestration layer over libvirt and a
few command-line tools.  We embed it shallowly: the host filesystem is an
association list from paths to modification tokens, the libvirt domain
registry is an association list from domain names to an `isActive` flag, and
each external effect (subprocess success/failure, daemon call, network fetch,
user input) is an explicit parameter or an entry in an emitted trace.
Python exceptions are `Except` values: an uncaught exception is `.error`,
a caught one is folded into the handler's result.
-/

namespace VMMgr

/-- The Python exception classes that matter to control flow in the script:
`subprocess.CalledProcessError` (raised by `subprocess.run(..., check=True)`
on a non-zero exit), `FileNotFoundError` (raised by `subprocess.run` when the
executable itself is absent, and by `open` on a missing file), and
`libvirt.libvirtError` (raised by daemon API calls). -/
inductive PyError
  | calledProcessError
  | fileNotFoundError
  | libvirtError
deriving DecidableEq, Repr

/-- Outcome of invoking an external command-line tool via `subprocess.run`:
it ran and exited 0, it ran and exited non-zero, or its binary was not found
on the system (in Python the third case raises `FileNotFoundError` before the
tool ever runs). -/
inductive ToolRun
  | success
  | nonzeroExit
  | binaryMissing
deriving DecidableEq, Repr

/-- Host filesystem model: the set of existing regular files, each with a
modification token (abstract mtime).  A path is absent iff it has no entry. -/
abbrev FS := List (String × Nat)

/-- libvirt's domain registry: each defined domain's name with the result its
handle's `isActive()` would give (`true` = running, `false` = defined but
stopped).  A name absent from the list is undefined and `lookupByName`
raises `libvirtError` on it. -/
abbrev Registry := List (String × Bool)

/-- Association-list lookup used for both `FS` and `Registry`. -/
def assocFind {α : Type} : List (String × α) → String → Option α
  | [], _ => none
  | (k, v) :: rest, key => if k = key then some v else assocFind rest key

/-- Create or overwrite the file at `p` with a fresh modification token. -/
def fsWrite (fs : FS) (p : String) (t : Nat) : FS :=
  (p, t) :: fs.filter (fun e => e.1 ≠ p)

/-- `Path.unlink()`: remove the file at `p`. -/
def fsUnlink (fs : FS) (p : String) : FS :=
  fs.filter (fun e => e.1 ≠ p)

/-- `self.vm_dir = Path("/tmp/vm-storage")` (line 25). -/
def vm_dir : String := "/tmp/vm-storage"

/-- `disk_path = self.vm_dir / f"{self.vm_name}.qcow2"` (line 130). -/
def disk_path (vm_name : String) : String := vm_dir ++ "/" ++ vm_name ++ ".qcow2"

/-- Result of `create_vm_disk`: the returned path or a propagated exception,
the filesystem afterwards, and whether `qemu-img create` was invoked. -/
structure DiskResult where
  result : Except PyError String
  fs : FS
  qemuImgInvoked : Bool
deriving Repr

/-- `WindowsVMManager.create_vm_disk` (lines 128-142): if the disk image
already exists at the path derived from the VM name, return it unchanged;
otherwise run `qemu-img create -f qcow2 <path> <size>G` with `check=True`,
so a non-zero exit raises `CalledProcessError` (uncaught, fatal).
`qemuImgOk` is the tool's exit status, `newMtime` the created file's token. -/
def create_vm_disk (vm_name : String) (fs : FS) (qemuImgOk : Bool)
    (newMtime : Nat) : DiskResult :=
  let dp := disk_path vm_name
  if (assocFind fs dp).isSome then
    ⟨.ok dp, fs, false⟩
  else if qemuImgOk then
    ⟨.ok dp, fsWrite fs dp newMtime, true⟩
  else
    ⟨.error .calledProcessError, fs, true⟩

/-- `autounattend_path = self.vm_dir / "autounattend.xml"` (line 246). -/
def autounattend_xml_path : String := vm_dir ++ "/autounattend.xml"

/-- `autounattend_iso = self.vm_dir / "autounattend.iso"` (line 251). -/
def autounattend_iso_path : String := vm_dir ++ "/autounattend.iso"

/-- `WindowsVMManager.create_unattended_xml` (lines 144-257): always writes
the fixed-template `autounattend.xml` (its constant text is irrelevant to the
claims, so the file is recorded with a fresh token only), then runs
`genisoimage -o autounattend.iso -J -r autounattend.xml` with `check=True`.
A non-zero exit raises `CalledProcessError`; a missing `genisoimage` binary
makes `subprocess.run` itself raise `FileNotFoundError`.  Either way the
`autounattend.xml` write has already happened. -/
def create_unattended_xml (fs : FS) (xmlMtime isoMtime : Nat)
    (geniso : ToolRun) : FS × Except PyError String :=
  let fs1 := fsWrite fs autounattend_xml_path xmlMtime
  match geniso with
  | .success => (fsWrite fs1 autounattend_iso_path isoMtime, .ok autounattend_iso_path)
  | .nonzeroExit => (fs1, .error .calledProcessError)
  | .binaryMissing => (fs1, .error .fileNotFoundError)

/-- The unattended-ISO step inside `create_and_start_vm` (lines 440-447):
when requested, call `create_unattended_xml` under
`try: ... except subprocess.CalledProcessError: ...`.  Only
`CalledProcessError` is caught (falling through with `autounattend_iso =
None` and a warning); any other exception — in particular the
`FileNotFoundError` raised when the `genisoimage` binary is missing —
propagates out of `create_and_start_vm` uncaught. -/
def unattended_step (create_unattended : Bool) (fs : FS)
    (xmlMtime isoMtime : Nat) (geniso : ToolRun) :
    FS × Except PyError (Option String) :=
  if create_unattended then
    match create_unattended_xml fs xmlMtime isoMtime geniso with
    | (fs2, .ok p) => (fs2, .ok (some p))
    | (fs2, .error .calledProcessError) => (fs2, .ok none)
    | (fs2, .error e) => (fs2, .error e)
  else (fs, .ok none)

/-- `virtio_iso_path = self.vm_dir / "virtio-win.iso"` (line 98). -/
def virtio_cache_path : String := vm_dir ++ "/virtio-win.iso"

/-- Result of `download_virtio_drivers`: the resolved path (or `none`) and
whether the network was contacted. -/
structure VirtioResult where
  result : Option String
  networkAccessed : Bool
deriving DecidableEq, Repr

/-- `WindowsVMManager.download_virtio_drivers` (lines 96-126): return the
cached `/tmp/vm-storage/virtio-win.iso` if it exists; otherwise the first
match of the two system glob patterns `/usr/share/virtio-win/virtio-win.iso`
and `/usr/share/virtio-win/virtio-win-*.iso` (their match lists are the
`sysGlob1`/`sysGlob2` inputs); otherwise download from the fixed URL into the
cache path, returning `none` if the fetch fails. -/
def download_virtio_drivers (fs : FS) (sysGlob1 sysGlob2 : List String)
    (downloadOk : Bool) : VirtioResult :=
  if (assocFind fs virtio_cache_path).isSome then
    ⟨some virtio_cache_path, false⟩
  else
    match sysGlob1 with
    | f :: _ => ⟨some f, false⟩
    | [] =>
      match sysGlob2 with
      | f :: _ => ⟨some f, false⟩
      | [] =>
        if downloadOk then ⟨some virtio_cache_path, true⟩
        else ⟨none, true⟩

/-- Python's `f"{n:02x}"`: lowercase hexadecimal, left-padded with `0` to a
minimum width of 2. -/
def toHex2 (n : Nat) : String :=
  let s := String.mk (Nat.toDigits 16 n)
  if s.length < 2 then "0" ++ s else s

/-- `mac = "52:54:00:" + ":".join([f"{random.randint(0, 255):02x}" for _ in
range(3)])` (line 266), with the three random octets made explicit inputs. -/
def randomMac (o1 o2 o3 : Nat) : String :=
  "52:54:00:" ++ String.intercalate ":" [toHex2 o1, toHex2 o2, toHex2 o3]

/-- The body of `WindowsVMManager.generate_vm_xml` (lines 259-425) after the
MAC has been drawn: a pure string build from the VM name, shared directory,
disk path, installer ISO path, VirtIO driver ISO path, optional unattended
ISO path and the MAC address.  `memory_mb` and `vcpus` are the fixed
constants of lines 261-262.  The third cdrom device is appended only when an
unattended ISO path is present (line 338). -/
def vm_xml_with_mac (vm_name cwd_path dp iso_path virtio_path : String)
    (autounattend_iso : Option String) (mac : String) : String :=
  let memory_mb : Nat := 8192
  let vcpus : Nat := 4
  let xml :=
    "<domain type='kvm'>
  <name>" ++ vm_name ++ "</name>
  <memory unit='MiB'>" ++ toString memory_mb ++ "</memory>
  <currentMemory unit='MiB'>" ++ toString memory_mb ++ "</currentMemory>
  <vcpu placement='static'>" ++ toString vcpus ++ "</vcpu>
  <os>
    <type arch='x86_64' machine='pc-q35-6.2'>hvm</type>
    <loader readonly='yes' type='pflash'>/usr/share/OVMF/OVMF_CODE.fd</loader>
    <nvram>/var/lib/libvirt/qemu/nvram/" ++ vm_name ++ "_VARS.fd</nvram>
    <boot dev='cdrom'/>
    <boot dev='hd'/>
  </os>
  <features>
    <acpi/>
    <apic/>
    <hyperv mode='custom'>
      <relaxed state='on'/>
      <vapic state='on'/>
      <spinlocks state='on' retries='8191'/>
      <vpindex state='on'/>
      <synic state='on'/>
      <stimer state='on'/>
      <reset state='on'/>
      <vendor_id state='on' value='KVM Hv'/>
      <frequencies state='on'/>
    </hyperv>
    <kvm>
      <hidden state='on'/>
    </kvm>
    <vmport state='off'/>
  </features>
  <cpu mode='host-model' check='partial'>
    <topology sockets='1' dies='1' cores='" ++ toString vcpus ++ "' threads='1'/>
  </cpu>
  <clock offset='localtime'>
    <timer name='rtc' tickpolicy='catchup'/>
    <timer name='pit' tickpolicy='delay'/>
    <timer name='hpet' present='no'/>
    <timer name='hypervclock' present='yes'/>
  </clock>
  <on_poweroff>destroy</on_poweroff>
  <on_reboot>restart</on_reboot>
  <on_crash>destroy</on_crash>
  <pm>
    <suspend-to-mem enabled='no'/>
    <suspend-to-disk enabled='no'/>
  </pm>
  <devices>
    <emulator>/usr/bin/qemu-system-x86_64</emulator>
    <disk type='file' device='disk'>
      <driver name='qemu' type='qcow2' cache='writeback'/>
      <source file='" ++ dp ++ "'/>
      <target dev='vda' bus='virtio'/>
      <address type='pci' domain='0x0000' bus='0x03' slot='0x00' function='0x0'/>
    </disk>
    <disk type='file' device='cdrom'>
      <driver name='qemu' type='raw'/>
      <source file='" ++ iso_path ++ "'/>
      <target dev='sda' bus='sata'/>
      <readonly/>
      <address type='drive' controller='0' bus='0' target='0' unit='0'/>
    </disk>
    <disk type='file' device='cdrom'>
      <driver name='qemu' type='raw'/>
      <source file='" ++ virtio_path ++ "'/>
      <target dev='sdb' bus='sata'/>
      <readonly/>
      <address type='drive' controller='0' bus='0' target='0' unit='1'/>
    </disk>"
  let xml :=
    match autounattend_iso with
    | some au => xml ++ "
    <disk type='file' device='cdrom'>
      <driver name='qemu' type='raw'/>
      <source file='" ++ au ++ "'/>
      <target dev='sdc' bus='sata'/>
      <readonly/>
      <address type='drive' controller='0' bus='0' target='0' unit='2'/>
    </disk>"
    | none => xml
  xml ++ "
    <controller type='usb' index='0' model='qemu-xhci' ports='15'>
      <address type='pci' domain='0x0000' bus='0x02' slot='0x00' function='0x0'/>
    </controller>
    <controller type='sata' index='0'>
      <address type='pci' domain='0x0000' bus='0x00' slot='0x1f' function='0x2'/>
    </controller>
    <controller type='pci' index='0' model='pcie-root'/>
    <controller type='pci' index='1' model='pcie-root-port'>
      <model name='pcie-root-port'/>
      <target chassis='1' port='0x10'/>
      <address type='pci' domain='0x0000' bus='0x00' slot='0x02' function='0x0' multifunction='on'/>
    </controller>
    <controller type='pci' index='2' model='pcie-root-port'>
      <model name='pcie-root-port'/>
      <target chassis='2' port='0x11'/>
      <address type='pci' domain='0x0000' bus='0x00' slot='0x02' function='0x1'/>
    </controller>
    <controller type='pci' index='3' model='pcie-root-port'>
      <model name='pcie-root-port'/>
      <target chassis='3' port='0x12'/>
      <address type='pci' domain='0x0000' bus='0x00' slot='0x02' function='0x2'/>
    </controller>
    <filesystem type='mount' accessmode='mapped'>
      <source dir='" ++ cwd_path ++ "'/>
      <target dir='hostshare'/>
      <address type='pci' domain='0x0000' bus='0x01' slot='0x00' function='0x0'/>
    </filesystem>
    <interface type='user'>
      <mac address='" ++ mac ++ "'/>
      <model type='virtio'/>
      <address type='pci' domain='0x0000' bus='0x01' slot='0x01' function='0x0'/>
    </interface>
    <serial type='pty'>
      <target type='isa-serial' port='0'>
        <model name='isa-serial'/>
      </target>
    </serial>
    <console type='pty'>
      <target type='serial' port='0'/>
    </console>
    <channel type='spicevmc'>
      <target type='virtio' name='com.redhat.spice.0'/>
      <address type='virtio-serial' controller='0' bus='0' port='1'/>
    </channel>
    <input type='tablet' bus='usb'>
      <address type='usb' bus='0' port='1'/>
    </input>
    <input type='mouse' bus='ps2'/>
    <input type='keyboard' bus='ps2'/>
    <graphics type='spice' autoport='yes'>
      <listen type='address'/>
      <image compression='off'/>
    </graphics>
    <sound model='ich9'>
      <address type='pci' domain='0x0000' bus='0x00' slot='0x1b' function='0x0'/>
    </sound>
    <audio id='1' type='spice'/>
    <video>
      <model type='qxl' ram='65536' vram='65536' vgamem='16384' heads='1' primary='yes'/>
      <address type='pci' domain='0x0000' bus='0x00' slot='0x01' function='0x0'/>
    </video>
    <redirdev bus='usb' type='spicevmc'>
      <address type='usb' bus='0' port='2'/>
    </redirdev>
    <redirdev bus='usb' type='spicevmc'>
      <address type='usb' bus='0' port='3'/>
    </redirdev>
    <memballoon model='virtio'>
      <address type='pci' domain='0x0000' bus='0x04' slot='0x00' function='0x0'/>
    </memballoon>
    <rng model='virtio'>
      <backend model='random'>/dev/urandom</backend>
      <address type='pci' domain='0x0000' bus='0x05' slot='0x00' function='0x0'/>
    </rng>
  </devices>
</domain>"

/-- `WindowsVMManager.generate_vm_xml` (lines 259-425): draw the MAC from the
three random octets, then build the document.  Pure — no filesystem or
network access appears anywhere in the source of this method. -/
def generate_vm_xml (vm_name cwd_path dp iso_path virtio_path : String)
    (autounattend_iso : Option String) (o1 o2 o3 : Nat) : String :=
  vm_xml_with_mac vm_name cwd_path dp iso_path virtio_path autounattend_iso
    (randomMac o1 o2 o3)

/-- A libvirt domain object as held by the script: either the handle returned
by `conn.lookupByName` for an already-defined domain, or the one returned by
`conn.defineXML` for a freshly defined domain. -/
inductive Handle
  | existing (name : String)
  | newlyDefined (name : String)
deriving DecidableEq, Repr

/-- The daemon API calls the script issues, in order of emission:
`lookupByName`, `defineXML`, `create()` (start), `shutdown()`, `destroy()`
(force stop), `undefine()`. -/
inductive DaemonCall
  | lookup (name : String)
  | defineDomain (xml : String)
  | start (name : String)
  | shutdown (name : String)
  | forceStop (name : String)
  | undefine (name : String)
deriving DecidableEq, Repr

/-- Lines 467-472 plus the outer `except` (lines 474-476): issue
`conn.defineXML(xml)` and, if that succeeds, `domain.create()` on the new
handle.  `defineOk`/`startNewOk` model whether those two calls raise
`libvirtError`; a raise here is caught by the outer handler, which prints
"Failed to create VM" and returns `None`.  Result: the returned handle (or
`none`) and the calls issued by this part. -/
def define_phase (vm_name xml : String) (defineOk startNewOk : Bool) :
    Option Handle × List DaemonCall :=
  if defineOk then
    ((if startNewOk then some (.newlyDefined vm_name) else none),
      [.defineDomain xml, .start vm_name])
  else
    (none, [.defineDomain xml])

/-- The domain-handling `try` block of `create_and_start_vm` (lines
452-476).  The inner `try` (lines 454-465) wraps the `lookupByName`, the
`isActive()` query and the `existing_domain.create()` start call, and its
`except libvirt.libvirtError: pass` swallows a `libvirtError` from any of
the three; control then falls through to `define_phase` — i.e. to
`conn.defineXML` — even when the name is already defined.  So: name found
and `isActive()` answers running → return the existing handle; found and
answers stopped → `existing_domain.create()`, returning the existing handle
on success but falling through to `define_phase` on a raise
(`startExistingOk = false`); `isActive()` itself raising
(`isActiveOk = false`) falls through likewise; name not found (the lookup
raises) falls through to `define_phase` as intended.  `isActive()` is a
query on the handle, not recorded in the call trace; its answer is the
registry entry. -/
def domain_phase (reg : Registry) (vm_name xml : String)
    (isActiveOk startExistingOk defineOk startNewOk : Bool) :
    Option Handle × List DaemonCall :=
  match assocFind reg vm_name with
  | some active =>
    if isActiveOk then
      if active then (some (.existing vm_name), [.lookup vm_name])
      else
        if startExistingOk then
          (some (.existing vm_name), [.lookup vm_name, .start vm_name])
        else
          let d := define_phase vm_name xml defineOk startNewOk
          (d.1, .lookup vm_name :: .start vm_name :: d.2)
    else
      let d := define_phase vm_name xml defineOk startNewOk
      (d.1, .lookup vm_name :: d.2)
  | none =>
    let d := define_phase vm_name xml defineOk startNewOk
    (d.1, .lookup vm_name :: d.2)

/-- `WindowsVMManager.create_and_start_vm` (lines 427-476): connect to the
daemon (failure is caught: print and return `None` having done nothing),
create the disk, run the unattended-ISO step, generate the XML, then run the
domain phase.  A `CalledProcessError` from `qemu-img` and a
`FileNotFoundError` from the unattended step propagate uncaught (`.error`).
Result: the filesystem afterwards, and on normal return the handle
(or `none`) with the daemon-call trace. -/
def create_and_start_vm (vm_name cwd_path iso_path virtio_path : String)
    (create_unattended : Bool) (fs : FS) (connOk qemuImgOk : Bool)
    (diskMtime xmlMtime isoMtime : Nat) (geniso : ToolRun) (reg : Registry)
    (o1 o2 o3 : Nat) (isActiveOk startExistingOk defineOk startNewOk : Bool) :
    FS × Except PyError (Option Handle × List DaemonCall) :=
  if connOk then
    let d := create_vm_disk vm_name fs qemuImgOk diskMtime
    match d.result with
    | .error e => (d.fs, .error e)
    | .ok dp =>
      match unattended_step create_unattended d.fs xmlMtime isoMtime geniso with
      | (fs2, .error e) => (fs2, .error e)
      | (fs2, .ok au) =>
        let xml := generate_vm_xml vm_name cwd_path dp iso_path virtio_path
          au o1 o2 o3
        (fs2, .ok (domain_phase reg vm_name xml isActiveOk startExistingOk
          defineOk startNewOk))
  else (fs, .ok (none, []))

/-- The manager object.  `__init__` (lines 21-26): `conn` starts as `None`
(`conn = false` here) and is only ever set inside `create_and_start_vm`. -/
structure WindowsVMManager where
  cwd_path : String
  vm_name : String
  conn : Bool
deriving DecidableEq, Repr

/-- `WindowsVMManager.__init__` (lines 21-26): default the shared directory
to the current working directory and the VM name to
`f"windows11-{int(time.time())}"`; `self.conn = None`. -/
def WindowsVMManager.init (cwd_arg vm_name_arg : Option String)
    (cwdDefault : String) (timeNow : Nat) : WindowsVMManager :=
  { cwd_path := cwd_arg.getD cwdDefault
    vm_name := vm_name_arg.getD ("windows11-" ++ toString timeNow)
    conn := false }

/-- Outcome of `stop_vm`: the messages printed and the daemon calls issued. -/
structure StopResult where
  msgs : List String
  calls : List DaemonCall
deriving DecidableEq, Repr

/-- `WindowsVMManager.stop_vm` (lines 523-536): if `self.conn` is unset,
return immediately.  Otherwise look the domain up: a `libvirtError` (name
undefined, or a failing `shutdown()`, modelled by `shutdownOk`) is caught and
reported; an active domain gets a graceful `shutdown()`; an inactive one gets
only the "is not running" message. -/
def stop_vm (m : WindowsVMManager) (reg : Registry) (shutdownOk : Bool) :
    StopResult :=
  if m.conn = false then ⟨[], []⟩
  else
    match assocFind reg m.vm_name with
    | none => ⟨["Failed to stop VM: error"], [.lookup m.vm_name]⟩
    | some true =>
      if shutdownOk then
        ⟨["Shutting down VM '" ++ m.vm_name ++ "'..."],
          [.lookup m.vm_name, .shutdown m.vm_name]⟩
      else
        ⟨["Failed to stop VM: error"], [.lookup m.vm_name, .shutdown m.vm_name]⟩
    | some false =>
      ⟨["VM '" ++ m.vm_name ++ "' is not running"], [.lookup m.vm_name]⟩

/-- Python's `str.lower()` applied to the confirmation reply (the script
only ever compares it against the ASCII `"y"`): lowercase every character. -/
def pyLower (s : String) : String := String.mk (s.data.map Char.toLower)

/-- Outcome of `destroy_vm`: filesystem afterwards, messages printed, daemon
calls issued, whether the disk-removal prompt was shown, and whether the disk
file was unlinked. -/
structure DestroyResult where
  fs : FS
  msgs : List String
  calls : List DaemonCall
  prompted : Bool
  unlinked : Bool
deriving DecidableEq, Repr

/-- `WindowsVMManager.destroy_vm` (lines 538-559): if `self.conn` is unset,
return immediately.  Otherwise look the domain up (`libvirtError` caught and
reported), force-stop it if active (`destroyOk` models whether `destroy()`
raises), `undefine()` it (`undefineOk` likewise), print the "destroyed"
message; then, only if the disk file exists, prompt
`"Remove disk file ...? (y/N): "` and unlink the disk exactly when the reply
lowercases to `"y"`. -/
def destroy_vm (m : WindowsVMManager) (reg : Registry) (fs : FS)
    (destroyOk undefineOk : Bool) (response : String) : DestroyResult :=
  if m.conn = false then ⟨fs, [], [], false, false⟩
  else
    match assocFind reg m.vm_name with
    | none => ⟨fs, ["Failed to destroy VM: error"], [.lookup m.vm_name],
        false, false⟩
    | some active =>
      let calls0 := if active then [DaemonCall.lookup m.vm_name,
          DaemonCall.forceStop m.vm_name]
        else [DaemonCall.lookup m.vm_name]
      if active && !destroyOk then
        ⟨fs, ["Failed to destroy VM: error"], calls0, false, false⟩
      else if !undefineOk then
        ⟨fs, ["Failed to destroy VM: error"],
          calls0 ++ [DaemonCall.undefine m.vm_name], false, false⟩
      else
        let calls := calls0 ++ [DaemonCall.undefine m.vm_name]
        let msgs0 := ["VM '" ++ m.vm_name ++ "' destroyed"]
        let dp := disk_path m.vm_name
        if (assocFind fs dp).isSome then
          if pyLower response = "y" then
            ⟨fsUnlink fs dp, msgs0 ++ ["Disk file removed"], calls, true, true⟩
          else
            ⟨fs, msgs0, calls, true, false⟩
        else
          ⟨fs, msgs0, calls, false, false⟩

/-- The parsed command-line arguments of `main` (lines 590-600).  argparse
defaults every string flag to `None` and every `store_true` flag to
`False`. -/
structure Args where
  name : Option String
  cwd : Option String
  iso : Option String
  stop : Option String
  destroy : Option String
  listFlag : Bool
  no_unattended : Bool
  no_client : Bool
deriving DecidableEq, Repr

/-- The `--stop` branch of `main` (lines 603-606): construct
`WindowsVMManager(vm_name=args.stop)` — whose `conn` is `None` — and call
`stop_vm` on it. -/
def main_stop (stopName : String) (cwdDefault : String) (timeNow : Nat)
    (reg : Registry) (shutdownOk : Bool) : StopResult :=
  stop_vm (WindowsVMManager.init none (some stopName) cwdDefault timeNow)
    reg shutdownOk

/-- The `--destroy` branch of `main` (lines 608-611): construct
`WindowsVMManager(vm_name=args.destroy)` — whose `conn` is `None` — and call
`destroy_vm` on it. -/
def main_destroy (destroyName : String) (cwdDefault : String) (timeNow : Nat)
    (reg : Registry) (fs : FS) (destroyOk undefineOk : Bool)
    (response : String) : DestroyResult :=
  destroy_vm (WindowsVMManager.init none (some destroyName) cwdDefault timeNow)
    reg fs destroyOk undefineOk response

/-- The `--list` branch of `main` (lines 613-623): open a connection and
enumerate all domains; a `libvirtError` (`listConnOk = false`) is caught and
reported.  Either way the branch ends in a bare `return`. -/
def main_list (listConnOk : Bool) (reg : Registry) : List String :=
  if listConnOk then
    "Virtual Machines:" ::
      reg.map (fun d => "  " ++ d.1 ++ " - " ++
        (if d.2 then "Running" else "Stopped"))
  else
    ["Failed to list VMs: error"]

/-- Lines 639-643 of `main`: the installer ISO in use — `args.iso` when
given, otherwise the `download_windows_iso` glob result (`isoGlobFound`);
`none` aborts the run. -/
def resolve_iso (args : Args) (isoGlobFound : Option String) : Option String :=
  match args.iso with
  | some p => some p
  | none => isoGlobFound

/-- `main` (lines 587-679), with every external observation an explicit
input.  The three management branches (`--stop`, `--destroy`, `--list`) end
in a bare `return`, i.e. `.ok none`.  The create path returns `1` on each
failed precondition (dependencies, virtualization support, installer ISO
resolution, installer ISO existence, driver resolution, `create_and_start_vm`
returning `None`) and `0` on success; an exception escaping
`create_and_start_vm` propagates out of `main` (`.error`). -/
def main (args : Args) (cwdDefault : String) (timeNow : Nat)
    (listConnOk : Bool) (reg : Registry) (fs : FS) (depsOk virtOk : Bool)
    (isoGlobFound : Option String) (sysGlob1 sysGlob2 : List String)
    (downloadOk : Bool) (connOk qemuImgOk : Bool)
    (diskMtime xmlMtime isoMtime : Nat) (geniso : ToolRun) (o1 o2 o3 : Nat)
    (isActiveOk startExistingOk defineOk startNewOk : Bool)
    (destroyOk undefineOk : Bool)
    (response : String) (shutdownOk : Bool) : Except PyError (Option Nat) :=
  match args.stop with
  | some n =>
    let _ := main_stop n cwdDefault timeNow reg shutdownOk
    .ok none
  | none =>
  match args.destroy with
  | some n =>
    let _ := main_destroy n cwdDefault timeNow reg fs destroyOk undefineOk
      response
    .ok none
  | none =>
  if args.listFlag then
    let _ := main_list listConnOk reg
    .ok none
  else
    let m := WindowsVMManager.init args.cwd args.name cwdDefault timeNow
    if depsOk = false then .ok (some 1)
    else if virtOk = false then .ok (some 1)
    else
      match resolve_iso args isoGlobFound with
      | none => .ok (some 1)
      | some iso_path =>
        if (assocFind fs iso_path).isNone then .ok (some 1)
        else
          match (download_virtio_drivers fs sysGlob1 sysGlob2
              downloadOk).result with
          | none => .ok (some 1)
          | some virtio_path =>
            match (create_and_start_vm m.vm_name m.cwd_path iso_path
                virtio_path (!args.no_unattended) fs connOk qemuImgOk
                diskMtime xmlMtime isoMtime geniso reg o1 o2 o3 isActiveOk
                startExistingOk defineOk startNewOk).2 with
            | .error e => .error e
            | .ok (none, _) => .ok (some 1)
            | .ok (some _, _) => .ok (some 0)

/-- `sys.exit(main())` (line 683) plus the interpreter's behaviour: `main`
returning `None` exits 0, returning an integer exits with it, and an
unhandled exception makes the interpreter exit 1 after a traceback. -/
def processExit (r : Except PyError (Option Nat)) : Nat :=
  match r with
  | .error _ => 1
  | .ok none => 0
  | .ok (some c) => c

/-- A freshly written file is found at its path. -/
theorem assocFind_fsWrite_self (fs : FS) (p : String) (t : Nat) :
    assocFind (fsWrite fs p t) p = some t := by
  simp [fsWrite, assocFind]

/-- C2: the descriptor generator is deterministic — two invocations with the
same VM name, shared directory, disk path, installer ISO path, driver ISO
path, optional unattended ISO path, and random octets yielding the same MAC
address produce byte-identical documents.  (`generate_vm_xml` is a pure
Lean function of exactly these inputs, reflecting that the source method
performs no I/O.) -/
theorem generate_vm_xml_deterministic (vm_name cwd_path dp iso_path
    virtio_path : String) (au : Option String) (o1 o2 o3 p1 p2 p3 : Nat)
    (h : randomMac o1 o2 o3 = randomMac p1 p2 p3) :
    generate_vm_xml vm_name cwd_path dp iso_path virtio_path au o1 o2 o3 =
      generate_vm_xml vm_name cwd_path dp iso_path virtio_path au p1 p2 p3 := by
  unfold generate_vm_xml
  rw [h]

/-- Witness for C2 at concrete inputs. -/
theorem generate_vm_xml_deterministic_witness :
    randomMac 1 2 3 = randomMac 1 2 3 ∧
    generate_vm_xml "w" "/cwd" "/d.qcow2" "/i.iso" "/v.iso" none 1 2 3 =
      generate_vm_xml "w" "/cwd" "/d.qcow2" "/i.iso" "/v.iso" none 1 2 3 :=
  ⟨rfl, generate_vm_xml_deterministic "w" "/cwd" "/d.qcow2" "/i.iso" "/v.iso"
    none 1 2 3 1 2 3 rfl⟩

/-- C3: disk creation is idempotent — if the disk image already exists at the
path derived from the VM name, `create_vm_disk` returns that path with the
filesystem untouched and `qemu-img` not invoked; consequently a second call
with the same name returns the first call's path, leaves every file's
modification state unchanged, and does not invoke the tool. -/
theorem create_vm_disk_idempotent (vm_name : String) (fs : FS)
    (ok1 ok2 : Bool) (t1 t2 : Nat) :
    ((assocFind fs (disk_path vm_name)).isSome = true →
      create_vm_disk vm_name fs ok1 t1 =
        ⟨.ok (disk_path vm_name), fs, false⟩) ∧
    (∀ p, (create_vm_disk vm_name fs ok1 t1).result = .ok p →
      create_vm_disk vm_name (create_vm_disk vm_name fs ok1 t1).fs ok2 t2 =
        ⟨.ok p, (create_vm_disk vm_name fs ok1 t1).fs, false⟩) := by
  constructor
  · intro h
    simp [create_vm_disk, h]
  · intro p hp
    by_cases h : (assocFind fs (disk_path vm_name)).isSome = true
    · simp [create_vm_disk, h] at hp ⊢
      exact hp
    · rcases ok1 with _ | _
      · simp [create_vm_disk, h] at hp
      · simp [create_vm_disk, h] at hp ⊢
        simp [assocFind_fsWrite_self]
        exact hp

/-- Witness for C3: a first call creates the disk, the second call returns
the same path, changes nothing, and does not invoke `qemu-img`. -/
theorem create_vm_disk_idempotent_witness :
    (create_vm_disk "w" [] true 0).result = .ok (disk_path "w") ∧
    create_vm_disk "w" (create_vm_disk "w" [] true 0).fs false 5 =
      ⟨.ok (disk_path "w"), (create_vm_disk "w" [] true 0).fs, false⟩ :=
  ⟨rfl, (create_vm_disk_idempotent "w" [] true false 0 5).2 (disk_path "w") rfl⟩

/-- C4: driver-image resolution follows the fixed search order — the cached
file is returned without network access when it exists; otherwise the first
match of the well-known system paths; otherwise the network download into the
cache; and the result is `none` exactly when the cache is absent, both system
globs are empty and the fetch fails. -/
theorem download_virtio_drivers_order (fs : FS) (g1 g2 : List String)
    (dOk : Bool) :
    ((assocFind fs virtio_cache_path).isSome = true →
      download_virtio_drivers fs g1 g2 dOk = ⟨some virtio_cache_path, false⟩) ∧
    ((assocFind fs virtio_cache_path).isSome = false →
      ∀ f rest, g1 = f :: rest →
        download_virtio_drivers fs g1 g2 dOk = ⟨some f, false⟩) ∧
    ((assocFind fs virtio_cache_path).isSome = false → g1 = [] →
      ∀ f rest, g2 = f :: rest →
        download_virtio_drivers fs g1 g2 dOk = ⟨some f, false⟩) ∧
    ((assocFind fs virtio_cache_path).isSome = false → g1 = [] → g2 = [] →
      download_virtio_drivers fs g1 g2 dOk =
        ⟨if dOk then some virtio_cache_path else none, true⟩) ∧
    ((download_virtio_drivers fs g1 g2 dOk).result = none ↔
      ((assocFind fs virtio_cache_path).isSome = false ∧ g1 = [] ∧ g2 = [] ∧
        dOk = false)) := by
  refine ⟨?_, ?_, ?_, ?_, ?_⟩
  · intro h
    simp [download_virtio_drivers, h]
  · intro h f rest hg
    subst hg
    simp [download_virtio_drivers, h]
  · intro h hg1 f rest hg2
    subst hg1; subst hg2
    simp [download_virtio_drivers, h]
  · intro h hg1 hg2
    subst hg1; subst hg2
    rcases dOk with _ | _ <;> simp [download_virtio_drivers, h]
  · unfold download_virtio_drivers
    rcases h : (assocFind fs virtio_cache_path).isSome with _ | _
    · rcases g1 with _ | ⟨f, rest⟩
      · rcases g2 with _ | ⟨f, rest⟩
        · rcases dOk with _ | _ <;> simp
        · simp
      · simp
    · simp [h]

/-- Witness for C4: with the cache present and a system candidate also
available, the cached file wins and no network access happens. -/
theorem download_virtio_drivers_order_witness :
    (assocFind [(virtio_cache_path, 0)] virtio_cache_path).isSome = true ∧
    download_virtio_drivers [(virtio_cache_path, 0)]
      ["/usr/share/virtio-win/virtio-win.iso"] [] true =
      ⟨some virtio_cache_path, false⟩ :=
  ⟨rfl, (download_virtio_drivers_order [(virtio_cache_path, 0)]
    ["/usr/share/virtio-win/virtio-win.iso"] [] true).1 rfl⟩

/-- C5 (code bug): a failure of the ISO-authoring tool is meant to degrade
gracefully, and a plain non-zero exit does (`CalledProcessError` is caught
and the run continues without the unattended ISO) — but when the
`genisoimage` binary is missing, `subprocess.run` raises `FileNotFoundError`,
which the handler at lines 445-447 does not catch, even though its own
message reads "(genisoimage not found)": the exception escapes
`create_and_start_vm` instead of returning `None`. -/
theorem unattended_missing_tool_uncaught :
    (unattended_step true [] 0 0 .nonzeroExit).2 = .ok none ∧
    (unattended_step true [] 0 0 .binaryMissing).2 =
      .error .fileNotFoundError ∧
    (create_and_start_vm "w" "/cwd" "/i.iso" "/v.iso" true [] true true 0 0 0
      .binaryMissing [] 0 0 0 true true true true).2 =
      .error .fileNotFoundError :=
  ⟨rfl, rfl, rfl⟩

/-- On every normal return of `create_and_start_vm` with the connection up,
the returned handle and daemon-call trace are those of the domain phase for
some generated descriptor. -/
theorem create_and_start_ok_domain_phase
    (vm_name cwd_path iso_path virtio_path : String) (cu : Bool) (fs : FS)
    (qemuImgOk : Bool) (dm xm im : Nat) (g : ToolRun) (reg : Registry)
    (o1 o2 o3 : Nat) (iaOk seOk defineOk snOk : Bool) (res : Option Handle)
    (calls : List DaemonCall)
    (hr : (create_and_start_vm vm_name cwd_path iso_path virtio_path cu fs
        true qemuImgOk dm xm im g reg o1 o2 o3 iaOk seOk defineOk snOk).2 =
      .ok (res, calls)) :
    ∃ x, domain_phase reg vm_name x iaOk seOk defineOk snOk =
      (res, calls) := by
  unfold create_and_start_vm at hr
  simp only [if_true] at hr
  split at hr
  · simp at hr
  · split at hr
    · simp at hr
    · simp only at hr
      exact ⟨_, Except.ok.inj hr⟩

/-- C1 counterexample: with `"w"` defined but stopped and the start call on
the existing handle raising `libvirtError`, create-and-start issues a
`defineXML` call on the already-defined name — the inner
`except libvirt.libvirtError: pass` swallows the start failure and control
falls through to `conn.defineXML` — refuting "if it exists but is stopped,
the operation only issues a start call on the existing handle" and "the
create-and-start operation never defines a domain that already exists". -/
theorem create_and_start_redefines_counterexample :
    assocFind [("w", false)] "w" = some false ∧
    (create_and_start_vm "w" "/cwd" "/i.iso" "/v.iso" false
        [(disk_path "w", 0)] true true 0 0 0 .success [("w", false)]
        0 0 0 true false true true).2 =
      .ok (some (.newlyDefined "w"),
        [.lookup "w", .start "w",
          .defineDomain (generate_vm_xml "w" "/cwd" (disk_path "w") "/i.iso"
            "/v.iso" none 0 0 0),
          .start "w"]) :=
  ⟨rfl, rfl⟩

/-- C1 amended: with the daemon connection up and a normal return — as long
as the `isActive()` query and any start call on the existing handle succeed
— create-and-start never defines a domain that already exists: running →
the existing handle is returned with only the lookup issued; stopped → only
a start call is issued on the existing handle; undefined → a descriptor is
defined and then started.  But when the start call on the existing stopped
domain raises `libvirtError` (or the `isActive()` query does), the inner
handler meant for lookup failures swallows the error and the operation falls
through to issue `defineXML` on the already-defined name. -/
theorem create_and_start_lifecycle_amended
    (vm_name cwd_path iso_path virtio_path : String) (cu : Bool) (fs : FS)
    (qemuImgOk : Bool) (dm xm im : Nat) (g : ToolRun) (reg : Registry)
    (o1 o2 o3 : Nat) (iaOk seOk defineOk snOk : Bool) (res : Option Handle)
    (calls : List DaemonCall)
    (hr : (create_and_start_vm vm_name cwd_path iso_path virtio_path cu fs
        true qemuImgOk dm xm im g reg o1 o2 o3 iaOk seOk defineOk snOk).2 =
      .ok (res, calls)) :
    ((assocFind reg vm_name).isSome = true → iaOk = true → seOk = true →
      ∀ x, DaemonCall.defineDomain x ∉ calls) ∧
    (assocFind reg vm_name = some true → iaOk = true →
      res = some (.existing vm_name) ∧ calls = [.lookup vm_name]) ∧
    (assocFind reg vm_name = some false → iaOk = true → seOk = true →
      res = some (.existing vm_name) ∧
      calls = [.lookup vm_name, .start vm_name]) ∧
    (assocFind reg vm_name = some false → iaOk = true → seOk = false →
      ∃ x, res = (define_phase vm_name x defineOk snOk).1 ∧
        calls = .lookup vm_name :: .start vm_name ::
          (define_phase vm_name x defineOk snOk).2) ∧
    ((assocFind reg vm_name).isSome = true → iaOk = false →
      ∃ x, res = (define_phase vm_name x defineOk snOk).1 ∧
        calls = .lookup vm_name :: (define_phase vm_name x defineOk snOk).2) ∧
    (assocFind reg vm_name = none → defineOk = true → snOk = true →
      ∃ x, res = some (.newlyDefined vm_name) ∧
        calls = [.lookup vm_name, .defineDomain x, .start vm_name]) := by
  obtain ⟨x, hx⟩ := create_and_start_ok_domain_phase vm_name cwd_path iso_path
    virtio_path cu fs qemuImgOk dm xm im g reg o1 o2 o3 iaOk seOk defineOk
    snOk res calls hr
  unfold domain_phase at hx
  rcases hl : assocFind reg vm_name with _ | b
  · rw [hl] at hx
    refine ⟨?_, ?_, ?_, ?_, ?_, ?_⟩
    · intro hs
      simp at hs
    · intro h
      simp at h
    · intro h
      simp at h
    · intro h
      simp at h
    · intro hs
      simp at hs
    · intro _ hd hs
      subst hd; subst hs
      simp only [define_phase, if_true, Prod.mk.injEq] at hx
      obtain ⟨rfl, rfl⟩ := hx
      exact ⟨x, rfl, rfl⟩
  · rw [hl] at hx
    rcases iaOk with _ | _
    · simp only [Bool.false_eq_true, if_false, Prod.mk.injEq] at hx
      obtain ⟨rfl, rfl⟩ := hx
      refine ⟨?_, ?_, ?_, ?_, ?_, ?_⟩
      · intro _ h
        simp at h
      · intro _ h
        simp at h
      · intro _ h
        simp at h
      · intro _ h
        simp at h
      · intro _ _
        exact ⟨x, rfl, rfl⟩
      · intro h
        simp at h
    · rcases b with _ | _
      · rcases seOk with _ | _
        · simp only [if_true, Bool.false_eq_true, if_false,
            Prod.mk.injEq] at hx
          obtain ⟨rfl, rfl⟩ := hx
          refine ⟨?_, ?_, ?_, ?_, ?_, ?_⟩
          · intro _ _ h
            simp at h
          · intro h
            simp at h
          · intro _ _ h
            simp at h
          · intro _ _ _
            exact ⟨x, rfl, rfl⟩
          · intro _ h
            simp at h
          · intro h
            simp at h
        · simp only [if_true, Prod.mk.injEq] at hx
          obtain ⟨rfl, rfl⟩ := hx
          refine ⟨?_, ?_, ?_, ?_, ?_, ?_⟩
          · intro _ _ _ y hy
            simp at hy
          · intro h
            simp at h
          · intro _ _ _
            exact ⟨rfl, rfl⟩
          · intro _ _ h
            simp at h
          · intro _ h
            simp at h
          · intro h
            simp at h
      · simp only [if_true, Prod.mk.injEq] at hx
        obtain ⟨rfl, rfl⟩ := hx
        refine ⟨?_, ?_, ?_, ?_, ?_, ?_⟩
        · intro _ _ _ y hy
          simp at hy
        · intro _ _
          exact ⟨rfl, rfl⟩
        · intro h
          simp at h
        · intro h
          simp at h
        · intro _ h
          simp at h
        · intro h
          simp at h

/-- Witness for the amended C1: with `"w"` already defined and running and
the `isActive()` query succeeding, the call returns the existing handle
having issued only the lookup. -/
theorem create_and_start_lifecycle_amended_witness :
    assocFind [("w", true)] "w" = some true ∧
    some (Handle.existing "w") = some (Handle.existing "w") ∧
    [DaemonCall.lookup "w"] = [DaemonCall.lookup "w"] :=
  ⟨rfl, (create_and_start_lifecycle_amended "w" "/cwd" "/i.iso" "/v.iso"
    true [] true 0 0 0 .success [("w", true)] 0 0 0 true true true true
    (some (.existing "w")) [.lookup "w"] rfl).2.1 rfl rfl⟩

/-- C6 counterexample: invoked via `--stop test-vm` with the domain defined
but stopped, the operation prints nothing at all — in particular not the
"not running" message the claim requires — because the manager built by the
CLI path has no daemon connection and `stop_vm` returns at its first line. -/
theorem stop_cli_counterexample :
    main_stop "test-vm" "/home/user" 0 [("test-vm", false)] true =
      ⟨[], []⟩ ∧
    "VM 'test-vm' is not running" ∉
      (main_stop "test-vm" "/home/user" 0 [("test-vm", false)] true).msgs := by
  refine ⟨rfl, ?_⟩
  intro h
  rw [show (main_stop "test-vm" "/home/user" 0 [("test-vm", false)] true).msgs
      = [] from rfl] at h
  exact List.not_mem_nil _ h

/-- C6 amended: when `stop_vm` runs on a manager holding an open daemon
connection and the domain exists but is not running, it prints the
"not running" message, issues no shutdown request, and returns without
error; invoked via the `--stop NAME` flag, however, the manager's connection
attribute is unset, so the method returns immediately and silently. -/
theorem stop_vm_not_running_message (m : WindowsVMManager) (reg : Registry)
    (sOk : Bool) (name cwdD : String) (t : Nat)
    (hc : m.conn = true) (h : assocFind reg m.vm_name = some false) :
    stop_vm m reg sOk =
      ⟨["VM '" ++ m.vm_name ++ "' is not running"], [.lookup m.vm_name]⟩ ∧
    main_stop name cwdD t reg sOk = ⟨[], []⟩ := by
  constructor
  · simp [stop_vm, hc, h]
  · rfl

/-- Witness for the amended C6. -/
theorem stop_vm_not_running_message_witness :
    (⟨"/c", "test-vm", true⟩ : WindowsVMManager).conn = true ∧
    assocFind [("test-vm", false)] "test-vm" = some false ∧
    stop_vm ⟨"/c", "test-vm", true⟩ [("test-vm", false)] true =
      ⟨["VM '" ++ "test-vm" ++ "' is not running"],
        [.lookup "test-vm"]⟩ :=
  ⟨rfl, rfl, (stop_vm_not_running_message ⟨"/c", "test-vm", true⟩
    [("test-vm", false)] true "x" "/c" 0 rfl rfl).1⟩

/-- C7 counterexample: invoked via `--destroy ghost` with no such domain, the
operation prints nothing — the daemon lookup failure is not reported, since
the CLI-built manager has no connection and `destroy_vm` returns at its first
line.  (It does terminate without an unhandled exception.) -/
theorem destroy_cli_counterexample :
    main_destroy "ghost" "/home/user" 0 [] [] true true "" =
      ⟨[], [], [], false, false⟩ ∧
    (main_destroy "ghost" "/home/user" 0 [] [] true true "").msgs = [] :=
  ⟨rfl, rfl⟩

/-- C7 amended: when `destroy_vm` runs on a manager holding an open daemon
connection and no domain with the name exists, the `libvirtError` from the
lookup is caught and an error message is printed, with no state change and a
normal return; invoked via the `--destroy NAME` flag, however, the manager's
connection attribute is unset, so the method returns immediately and
silently.  In both cases no exception escapes. -/
theorem destroy_vm_nonexistent_reports (m : WindowsVMManager)
    (reg : Registry) (fs : FS) (dOk uOk : Bool) (resp : String)
    (name cwdD : String) (t : Nat)
    (hc : m.conn = true) (h : assocFind reg m.vm_name = none) :
    destroy_vm m reg fs dOk uOk resp =
      ⟨fs, ["Failed to destroy VM: error"], [.lookup m.vm_name],
        false, false⟩ ∧
    main_destroy name cwdD t reg fs dOk uOk resp =
      ⟨fs, [], [], false, false⟩ := by
  constructor
  · simp [destroy_vm, hc, h]
  · rfl

/-- Witness for the amended C7. -/
theorem destroy_vm_nonexistent_reports_witness :
    (⟨"/c", "ghost", true⟩ : WindowsVMManager).conn = true ∧
    assocFind ([] : Registry) "ghost" = none ∧
    destroy_vm ⟨"/c", "ghost", true⟩ [] [] true true "" =
      ⟨[], ["Failed to destroy VM: error"], [.lookup "ghost"],
        false, false⟩ :=
  ⟨rfl, rfl, (destroy_vm_nonexistent_reports ⟨"/c", "ghost", true⟩ [] []
    true true "" "x" "/c" 0 rfl rfl).1⟩

/-- C9: the disk file is unlinked exactly when the confirmation prompt was
reached and the standard-input reply lowercases to `"y"`; on every other
reply and every path that never reaches the prompt the filesystem is left
unchanged, and the prompt is only ever reached when the disk file exists. -/
theorem destroy_disk_deletion_gated (m : WindowsVMManager) (reg : Registry)
    (fs : FS) (dOk uOk : Bool) (resp : String) :
    ((destroy_vm m reg fs dOk uOk resp).unlinked = true ↔
      ((destroy_vm m reg fs dOk uOk resp).prompted = true ∧
        pyLower resp = "y")) ∧
    ((destroy_vm m reg fs dOk uOk resp).unlinked = false →
      (destroy_vm m reg fs dOk uOk resp).fs = fs) ∧
    ((destroy_vm m reg fs dOk uOk resp).unlinked = true →
      (destroy_vm m reg fs dOk uOk resp).fs =
        fsUnlink fs (disk_path m.vm_name)) ∧
    ((destroy_vm m reg fs dOk uOk resp).prompted = true →
      (assocFind fs (disk_path m.vm_name)).isSome = true) := by
  unfold destroy_vm
  split
  · simp
  · split
    · simp
    · by_cases hd : (assocFind fs (disk_path m.vm_name)).isSome = true <;>
        split_ifs <;> simp_all

/-- Witness for C9: with the prompt reached and the reply `"Y"`, the disk is
unlinked. -/
theorem destroy_disk_deletion_gated_witness :
    (destroy_vm ⟨"/c", "vm", true⟩ [("vm", false)] [(disk_path "vm", 0)]
      true true "Y").prompted = true ∧
    (destroy_vm ⟨"/c", "vm", true⟩ [("vm", false)] [(disk_path "vm", 0)]
      true true "Y").unlinked = true :=
  ⟨by decide, (destroy_disk_deletion_gated ⟨"/c", "vm", true⟩ [("vm", false)]
    [(disk_path "vm", 0)] true true "Y").1.mpr ⟨by decide, by decide⟩⟩

/-- C10 (implicit): with the connection attribute unset — which is the case
for every manager the `--stop`/`--destroy` CLI paths construct, since
`__init__` sets it to `None` and those paths never open a connection —
`stop_vm` and `destroy_vm` return immediately: no daemon call, no message,
no filesystem change, no prompt, no deletion. -/
theorem conn_none_management_noop (m : WindowsVMManager) (reg : Registry)
    (fs : FS) (dOk uOk sOk : Bool) (resp : String) (name cwdD : String)
    (t : Nat) (hc : m.conn = false) :
    stop_vm m reg sOk = ⟨[], []⟩ ∧
    destroy_vm m reg fs dOk uOk resp = ⟨fs, [], [], false, false⟩ ∧
    (WindowsVMManager.init none (some name) cwdD t).conn = false ∧
    main_stop name cwdD t reg sOk = ⟨[], []⟩ ∧
    main_destroy name cwdD t reg fs dOk uOk resp =
      ⟨fs, [], [], false, false⟩ := by
  refine ⟨?_, ?_, rfl, rfl, rfl⟩
  · simp [stop_vm, hc]
  · simp [destroy_vm, hc]

/-- Witness for C10. -/
theorem conn_none_management_noop_witness :
    (⟨"/c", "vm", false⟩ : WindowsVMManager).conn = false ∧
    stop_vm ⟨"/c", "vm", false⟩ [("vm", true)] true = ⟨[], []⟩ :=
  ⟨rfl, (conn_none_management_noop ⟨"/c", "vm", false⟩ [("vm", true)]
    [] true true true "y" "vm" "/c" 0 rfl).1⟩

/-- C8 counterexample: `--list` with the daemon connection failing reports
the failure but ends in a bare `return`, so the process exits 0 — not 1 as
the claim requires for a daemon connection failure under the list
subcommand. -/
theorem exit_code_list_failure_counterexample :
    processExit (main ⟨none, none, none, none, none, true, false, false⟩
      "/x" 0 false [] [] true true none [] [] true true true 0 0 0 .success
      0 0 0 true true true true true true "" true) = 0 ∧
    main_list false [] = ["Failed to list VMs: error"] :=
  ⟨rfl, rfl⟩

/-- C8 amended: the management subcommands (`--stop`, `--destroy`, `--list`)
always exit 0, even when an error is reported; only the create flow exits 1
on an unmet precondition — missing tools, no virtualization support,
unresolved or missing installer image, failed driver resolution, or
`create_and_start_vm` returning no handle (which covers the daemon
connection failing during create) — and 0 when a handle is returned. -/
theorem exit_codes_amended
    (args : Args) (cwdDefault : String) (timeNow : Nat) (listConnOk : Bool)
    (reg : Registry) (fs : FS) (depsOk virtOk : Bool)
    (isoGlobFound : Option String) (sysGlob1 sysGlob2 : List String)
    (downloadOk connOk qemuImgOk : Bool) (dm xm im : Nat) (g : ToolRun)
    (o1 o2 o3 : Nat) (iaOk seOk defineOk snOk destroyOk undefineOk : Bool)
    (response : String) (shutdownOk : Bool)
    (r : Except PyError (Option Nat))
    (hr : main args cwdDefault timeNow listConnOk reg fs depsOk virtOk
      isoGlobFound sysGlob1 sysGlob2 downloadOk connOk qemuImgOk dm xm im g
      o1 o2 o3 iaOk seOk defineOk snOk destroyOk undefineOk response
      shutdownOk = r) :
    ((args.stop.isSome = true ∨ args.destroy.isSome = true ∨
        args.listFlag = true) → processExit r = 0) ∧
    (args.stop = none → args.destroy = none → args.listFlag = false →
      ((depsOk = false ∨ virtOk = false ∨
          resolve_iso args isoGlobFound = none → processExit r = 1) ∧
       (∀ p, depsOk = true → virtOk = true →
        resolve_iso args isoGlobFound = some p →
        ((assocFind fs p = none ∨
           (download_virtio_drivers fs sysGlob1 sysGlob2 downloadOk).result
             = none) → processExit r = 1) ∧
        ((assocFind fs p).isSome = true →
         ∀ v, (download_virtio_drivers fs sysGlob1 sysGlob2
             downloadOk).result = some v →
          (connOk = false → processExit r = 1) ∧
          (∀ cs, (create_and_start_vm
              (WindowsVMManager.init args.cwd args.name cwdDefault
                timeNow).vm_name
              (WindowsVMManager.init args.cwd args.name cwdDefault
                timeNow).cwd_path
              p v (!args.no_unattended) fs connOk qemuImgOk dm xm im g reg
              o1 o2 o3 iaOk seOk defineOk snOk).2 = .ok (none, cs) →
            processExit r = 1) ∧
          (∀ h cs, (create_and_start_vm
              (WindowsVMManager.init args.cwd args.name cwdDefault
                timeNow).vm_name
              (WindowsVMManager.init args.cwd args.name cwdDefault
                timeNow).cwd_path
              p v (!args.no_unattended) fs connOk qemuImgOk dm xm im g reg
              o1 o2 o3 iaOk seOk defineOk snOk).2 = .ok (some h, cs) →
            processExit r = 0))))) := by
  subst hr
  constructor
  · intro h
    rcases hs : args.stop with _ | n
    · rcases hd : args.destroy with _ | n
      · rcases h with h | h | h
        · rw [hs] at h
          simp at h
        · rw [hd] at h
          simp at h
        · simp [main, hs, hd, h, processExit]
      · simp [main, hs, hd, processExit]
    · simp [main, hs, processExit]
  · intro hs hd hl
    constructor
    · intro h
      rcases h with h | h | h
      · simp [main, hs, hd, hl, h, processExit]
      · rcases depsOk with _ | _ <;>
          simp [main, hs, hd, hl, h, processExit]
      · rcases depsOk with _ | _ <;> rcases virtOk with _ | _ <;>
          simp [main, hs, hd, hl, h, processExit]
    · intro p hdep hvirt hp
      constructor
      · intro h
        rcases h with h | h
        · simp [main, hs, hd, hl, hdep, hvirt, hp, h, processExit]
        · rcases ha : assocFind fs p with _ | t
          · simp [main, hs, hd, hl, hdep, hvirt, hp, ha, processExit]
          · simp [main, hs, hd, hl, hdep, hvirt, hp, ha, h, processExit]
      · intro hsome v hv
        rcases ha : assocFind fs p with _ | t
        · rw [ha] at hsome
          simp at hsome
        · refine ⟨?_, ?_, ?_⟩
          · intro hc
            subst hc
            simp [main, hs, hd, hl, hdep, hvirt, hp, ha, hv,
              create_and_start_vm, processExit]
          · intro cs hcs
            simp [main, hs, hd, hl, hdep, hvirt, hp, ha, hv, hcs,
              processExit]
          · intro h cs hcs
            simp [main, hs, hd, hl, hdep, hvirt, hp, ha, hv, hcs,
              processExit]

/-- Witness for the amended C8: a `--stop` invocation exits 0. -/
theorem exit_codes_amended_witness :
    (Args.stop ⟨none, none, none, some "vm", none, false, false, false⟩
      ).isSome = true ∧
    processExit (main ⟨none, none, none, some "vm", none, false, false,
      false⟩ "/x" 0 true [] [] true true none [] [] true true true 0 0 0
      .success 0 0 0 true true true true true true "" true) = 0 :=
  ⟨rfl, (exit_codes_amended ⟨none, none, none, some "vm", none, false,
    false, false⟩ "/x" 0 true [] [] true true none [] [] true true true
    0 0 0 .success 0 0 0 true true true true true true "" true _ rfl).1
    (Or.inl rfl)⟩

end VMMgr
